import Mathlib

/-!
Shallow embedding of the drivent booking subsystem
(src/services/booking-service, src/repositories/booking-repository),
with the persisted store modelled as an explicit state record and the
Prisma repository queries as pure functions over it.  The three service
operations are state-passing functions returning the domain result
(or a domain error) together with the resulting store.
-/

/-- Prisma TicketStatus enum: a ticket is either merely reserved or paid. -/
inductive TicketStatus where
  | RESERVED
  | PAID
deriving Repr, DecidableEq

/-- Prisma Room model (fields the booking subsystem reads). -/
structure Room where
  id : Nat
  name : String
  capacity : Nat
  hotelId : Nat
deriving Repr, DecidableEq

/-- Prisma Booking model (fields the booking subsystem reads and writes). -/
structure Booking where
  id : Nat
  userId : Nat
  roomId : Nat
deriving Repr, DecidableEq

/-- Prisma Enrollment model (only existence and id are consulted). -/
structure Enrollment where
  id : Nat
  userId : Nat
deriving Repr, DecidableEq

/-- Prisma TicketType model: the two flags the eligibility check reads. -/
structure TicketType where
  isRemote : Bool
  includesHotel : Bool
deriving Repr, DecidableEq

/-- Prisma Ticket model joined with its TicketType relation. -/
structure Ticket where
  enrollmentId : Nat
  status : TicketStatus
  ticketType : TicketType
deriving Repr, DecidableEq

/-- The persisted store: the tables the booking subsystem touches, plus the
autoincrement counter the next created booking receives as id. -/
structure DB where
  bookings : List Booking
  rooms : List Room
  enrollments : List Enrollment
  tickets : List Ticket
  nextBookingId : Nat
deriving Repr, DecidableEq

/-- The two domain errors of the service layer (notFoundError / forbiddenError). -/
inductive DomainError where
  | notFound
  | forbidden
deriving Repr, DecidableEq

/-- Result shape of findBookingByUserId: select id and joined Room relation.
The Room is an Option only because the embedding looks the relation up by
foreign key; under referential integrity it is always some. -/
structure BookingWithRoom where
  id : Nat
  room : Option Room
deriving Repr, DecidableEq

/-- bookingRepository.findBookingByUserId: first booking whose userId matches,
with its Room relation joined, selecting only id and Room. -/
def findBookingByUserId (db : DB) (userId : Nat) : Option BookingWithRoom :=
  (db.bookings.find? (fun b => b.userId == userId)).map
    (fun b => ⟨b.id, db.rooms.find? (fun r => r.id == b.roomId)⟩)

/-- bookingRepository.findBookingsByRoomId: all bookings referencing the room. -/
def findBookingsByRoomId (db : DB) (roomId : Nat) : List Booking :=
  db.bookings.filter (fun b => b.roomId == roomId)

/-- bookingRepository.createBooking: insert a new booking row for
(userId, roomId) and return its id. -/
def createBooking (db : DB) (userId roomId : Nat) : Nat × DB :=
  (db.nextBookingId,
   { db with
     bookings := db.bookings ++ [⟨db.nextBookingId, userId, roomId⟩],
     nextBookingId := db.nextBookingId + 1 })

/-- bookingRepository.findBookingById: first booking with the given id. -/
def findBookingById (db : DB) (bookingId : Nat) : Option Booking :=
  db.bookings.find? (fun b => b.id == bookingId)

/-- bookingRepository.updateBooking: set roomId of the booking row with the
given id and return that id. -/
def updateBookingRow (db : DB) (bookingId roomId : Nat) : Nat × DB :=
  (bookingId,
   { db with
     bookings := db.bookings.map
       (fun b => if b.id == bookingId then { b with roomId := roomId } else b) })

/-- enrollmentRepository.findWithAddressByUserId: the user's enrollment. -/
def findWithAddressByUserId (db : DB) (userId : Nat) : Option Enrollment :=
  db.enrollments.find? (fun e => e.userId == userId)

/-- ticketRepository.findTicketByEnrollmentId: the enrollment's ticket with
its TicketType joined. -/
def findTicketByEnrollmentId (db : DB) (enrollmentId : Nat) : Option Ticket :=
  db.tickets.find? (fun t => t.enrollmentId == enrollmentId)

/-- roomsRepository.findRoomById: the room with the given id. -/
def findRoomById (db : DB) (roomId : Nat) : Option Room :=
  db.rooms.find? (fun r => r.id == roomId)

/-- bookingService.getBooking: the user's booking with its room, or
notFound.  Reads only; the store it returns is the one it was given. -/
def getBooking (db : DB) (userId : Nat) : Except DomainError BookingWithRoom × DB :=
  match findBookingByUserId db userId with
  | none => (.error .notFound, db)
  | some booking => (.ok booking, db)

/-- bookingService.postBooking: the five checks in source order, then the
single createBooking write. -/
def postBooking (db : DB) (userId roomId : Nat) : Except DomainError Nat × DB :=
  match findWithAddressByUserId db userId with
  | none => (.error .forbidden, db)
  | some enrollment =>
    match findTicketByEnrollmentId db enrollment.id with
    | none => (.error .forbidden, db)
    | some ticket =>
      if ticket.status == .RESERVED || ticket.ticketType.isRemote
          || !ticket.ticketType.includesHotel then
        (.error .forbidden, db)
      else
        match findRoomById db roomId with
        | none => (.error .notFound, db)
        | some room =>
          match findBookingByUserId db userId with
          | some _ => (.error .forbidden, db)
          | none =>
            if (findBookingsByRoomId db roomId).length ≥ room.capacity then
              (.error .forbidden, db)
            else
              let created := createBooking db userId roomId
              (.ok created.1, created.2)

/-- bookingService.updateBooking: ownership and target-capacity checks in
source order, then the single updateBooking write. -/
def updateBooking (db : DB) (userId roomId bookingId : Nat) :
    Except DomainError Nat × DB :=
  match findBookingById db bookingId with
  | none => (.error .notFound, db)
  | some booking =>
    if booking.userId != userId then (.error .forbidden, db)
    else
      match findRoomById db roomId with
      | none => (.error .notFound, db)
      | some room =>
        if (findBookingsByRoomId db roomId).length ≥ room.capacity then
          (.error .forbidden, db)
        else
          let updated := updateBookingRow db bookingId roomId
          (.ok updated.1, updated.2)

/-- Policy invariant: a user holds at most one booking at a time. -/
def AtMostOneBookingPerUser (db : DB) : Prop :=
  ∀ u : Nat, (db.bookings.filter (fun b => b.userId == u)).length ≤ 1

/-- Policy invariant: a room holds no more bookings than its capacity. -/
def RoomsWithinCapacity (db : DB) : Prop :=
  ∀ room ∈ db.rooms,
    (db.bookings.filter (fun b => b.roomId == room.id)).length ≤ room.capacity

/-- Store well-formedness supplied by the database primary keys: booking ids
and room ids are unique. -/
def NodupIds (db : DB) : Prop :=
  (db.bookings.map Booking.id).Nodup ∧ (db.rooms.map Room.id).Nodup

/-- Store well-formedness supplied by the database foreign keys: every
booking references an existing room. -/
def ReferentialIntegrity (db : DB) : Prop :=
  ∀ b ∈ db.bookings, ∃ r ∈ db.rooms, r.id = b.roomId

/-- A store with one eligible user (id 1, enrollment 10, paid in-person
hotel ticket), an empty room 5 of capacity 2, and no bookings. -/
def dbOk : DB :=
  ⟨[], [⟨5, "suite", 2, 100⟩], [⟨10, 1⟩], [⟨10, .PAID, ⟨false, true⟩⟩], 100⟩

/-- Like dbOk, except user 1 already holds booking 7 in room 5. -/
def dbDup : DB :=
  ⟨[⟨7, 1, 5⟩], [⟨5, "suite", 2, 100⟩], [⟨10, 1⟩], [⟨10, .PAID, ⟨false, true⟩⟩], 100⟩

/-- Like dbOk, except the enrollment has no ticket at all. -/
def dbNoTicket : DB :=
  ⟨[], [⟨5, "suite", 2, 100⟩], [⟨10, 1⟩], [], 100⟩

/-- A store where user 1 holds booking 7 in room 5, whose capacity 1 is
exactly filled by that booking. -/
def dbSelf : DB :=
  ⟨[⟨7, 1, 5⟩], [⟨5, "single", 1, 100⟩], [⟨10, 1⟩], [⟨10, .PAID, ⟨false, true⟩⟩], 100⟩

/-- The store dbOk after user 1 books room 5, receiving booking id 100. -/
def dbOkAfter : DB :=
  ⟨[⟨100, 1, 5⟩], [⟨5, "suite", 2, 100⟩], [⟨10, 1⟩], [⟨10, .PAID, ⟨false, true⟩⟩], 101⟩

/-- A store where user 1 holds booking 7 in the full room 5 while room 6 of
capacity 2 stands free. -/
def dbMove : DB :=
  ⟨[⟨7, 1, 5⟩], [⟨5, "single", 1, 100⟩, ⟨6, "double", 2, 100⟩], [⟨10, 1⟩],
   [⟨10, .PAID, ⟨false, true⟩⟩], 100⟩

/-- The store dbMove after booking 7 is retargeted to room 6. -/
def dbMoveAfter : DB :=
  ⟨[⟨7, 1, 6⟩], [⟨5, "single", 1, 100⟩, ⟨6, "double", 2, 100⟩], [⟨10, 1⟩],
   [⟨10, .PAID, ⟨false, true⟩⟩], 100⟩

/-! ### Helper lemmas -/

theorem countP_le_countP_add {α : Type} (l : List α) (p q₁ q₂ : α → Bool)
    (h : ∀ x ∈ l, p x = true → q₁ x = true ∨ q₂ x = true) :
    l.countP p ≤ l.countP q₁ + l.countP q₂ := by
  induction l with
  | nil => simp
  | cons a l ih =>
    have ih' := ih (fun x hx hp => h x (List.mem_cons_of_mem a hx) hp)
    have ha := h a (List.mem_cons_self a l)
    rw [List.countP_cons, List.countP_cons, List.countP_cons]
    cases hpa : p a <;> cases hq1 : q₁ a <;> cases hq2 : q₂ a <;>
      simp_all <;> omega

theorem getBooking_state (db : DB) (u : Nat) : (getBooking db u).2 = db := by
  unfold getBooking
  split <;> rfl

theorem postBooking_error_state (db : DB) (u rm : Nat) (e : DomainError)
    (h : (postBooking db u rm).1 = .error e) : (postBooking db u rm).2 = db := by
  unfold postBooking at h ⊢
  repeat' split
  all_goals first | rfl | (simp_all)

theorem updateBooking_error_state (db : DB) (u rm b : Nat) (e : DomainError)
    (h : (updateBooking db u rm b).1 = .error e) : (updateBooking db u rm b).2 = db := by
  unfold updateBooking at h ⊢
  repeat' split
  all_goals first | rfl | (simp_all)

theorem postBooking_ok_inv (db : DB) (u rm id : Nat) (db' : DB)
    (h : postBooking db u rm = (.ok id, db')) :
    ∃ room, findRoomById db rm = some room ∧
      findBookingByUserId db u = none ∧
      (findBookingsByRoomId db rm).length < room.capacity ∧
      id = db.nextBookingId ∧
      db' = { db with
              bookings := db.bookings ++ [⟨db.nextBookingId, u, rm⟩],
              nextBookingId := db.nextBookingId + 1 } := by
  unfold postBooking at h
  repeat' split at h
  all_goals simp_all [createBooking]
  obtain ⟨h1, h2⟩ := h
  subst h1
  exact h2.symm

theorem updateBooking_ok_inv (db : DB) (u rm b id : Nat) (db' : DB)
    (h : updateBooking db u rm b = (.ok id, db')) :
    ∃ bk room, findBookingById db b = some bk ∧ bk.userId = u ∧
      findRoomById db rm = some room ∧
      (findBookingsByRoomId db rm).length < room.capacity ∧
      id = b ∧
      db' = { db with
              bookings := db.bookings.map
                (fun x => if x.id == b then { x with roomId := rm } else x) } := by
  unfold updateBooking at h
  repeat' split at h
  all_goals simp_all [updateBookingRow]
  obtain ⟨h1, h2⟩ := h
  subst h1
  exact h2.symm

/-- Claim C10: whenever retrieve, create, or update raises a domain error
(notFound or forbidden), the persisted store is unchanged — every
precondition check in all three operations precedes the single write, so a
failing call creates or modifies no booking. -/
theorem opsAtomicOnError (db : DB) (u rm b : Nat) :
    ((getBooking db u).2 = db) ∧
    (∀ e, (postBooking db u rm).1 = .error e → (postBooking db u rm).2 = db) ∧
    (∀ e, (updateBooking db u rm b).1 = .error e → (updateBooking db u rm b).2 = db) :=
  ⟨getBooking_state db u, fun e h => postBooking_error_state db u rm e h,
   fun e h => updateBooking_error_state db u rm b e h⟩

/-- Witness for C10: a create refused for lack of an enrollment and an
update refused for a missing booking both leave the concrete store intact. -/
theorem opsAtomicOnError_witness :
    (postBooking dbOk 2 5).2 = dbOk ∧ (updateBooking dbOk 1 5 7).2 = dbOk :=
  ⟨(opsAtomicOnError dbOk 2 5 7).2.1 .forbidden (by rfl),
   (opsAtomicOnError dbOk 2 5 7).2.2 .notFound (by rfl)⟩

/-- Claim C9: retrieve fails with notFound exactly when the user holds no
booking; otherwise it returns the booking id together with the associated
room record; in both cases the persisted store is left unchanged. -/
theorem getBooking_spec (db : DB) (u : Nat) (hRI : ReferentialIntegrity db) :
    ((getBooking db u).2 = db) ∧
    ((getBooking db u).1 = .error .notFound ↔ ∀ bk ∈ db.bookings, bk.userId ≠ u) ∧
    (∀ bw, (getBooking db u).1 = .ok bw →
      ∃ bk ∈ db.bookings, bk.userId = u ∧ bw.id = bk.id ∧
        ∃ r, bw.room = some r ∧ r ∈ db.rooms ∧ r.id = bk.roomId) := by
  refine ⟨getBooking_state db u, ?_, ?_⟩
  · unfold getBooking
    cases hf : findBookingByUserId db u with
    | none =>
      unfold findBookingByUserId at hf
      rw [Option.map_eq_none'] at hf
      rw [List.find?_eq_none] at hf
      simp only []
      constructor
      · intro _ bk hbk
        have := hf bk hbk
        simpa using this
      · intro _
        trivial
    | some bw =>
      unfold findBookingByUserId at hf
      rw [Option.map_eq_some'] at hf
      obtain ⟨bk, hfind, hmk⟩ := hf
      simp only []
      constructor
      · intro hcontra
        exact absurd hcontra (by simp)
      · intro hall
        have hmem := List.mem_of_find?_eq_some hfind
        have huid : bk.userId = u := by simpa using List.find?_some hfind
        exact absurd huid (hall bk hmem)
  · intro bw hbw
    unfold getBooking at hbw
    cases hf : findBookingByUserId db u with
    | none => rw [hf] at hbw; simp at hbw
    | some b0 =>
      rw [hf] at hbw
      simp only [Except.ok.injEq] at hbw
      subst hbw
      unfold findBookingByUserId at hf
      rw [Option.map_eq_some'] at hf
      obtain ⟨bk, hfind, hmk⟩ := hf
      have hmem := List.mem_of_find?_eq_some hfind
      have huid : bk.userId = u := by simpa using List.find?_some hfind
      obtain ⟨r, hrmem, hrid⟩ := hRI bk hmem
      have hsome : (db.rooms.find? (fun r => r.id == bk.roomId)).isSome :=
        List.find?_isSome.mpr ⟨r, hrmem, by simp [hrid]⟩
      obtain ⟨r', hr'⟩ := Option.isSome_iff_exists.mp hsome
      refine ⟨bk, hmem, huid, ?_, r', ?_, List.mem_of_find?_eq_some hr', ?_⟩
      · rw [← hmk]
      · rw [← hmk]
        simpa using hr'
      · simpa using List.find?_some hr'

/-- Witness for C9: in the concrete store with no bookings, retrieve for
user 1 fails with notFound. -/
theorem getBooking_spec_witness :
    (getBooking dbOk 1).1 = .error .notFound :=
  ((getBooking_spec dbOk 1 (by simp [ReferentialIntegrity, dbOk])).2.1).mpr (by decide)

/-- Claim C7: update's capacity check has no self-move exemption — when the
target room is the very room the caller's booking already occupies and that
room's occupant count (the caller included) has reached its capacity, update
fails with forbidden. -/
theorem update_no_self_exemption (db : DB) (u b : Nat) (bk : Booking) (room : Room)
    (h1 : findBookingById db b = some bk) (h2 : bk.userId = u)
    (h3 : findRoomById db bk.roomId = some room)
    (h4 : room.capacity ≤ (findBookingsByRoomId db bk.roomId).length) :
    updateBooking db u bk.roomId b = (.error .forbidden, db) := by
  unfold updateBooking
  rw [h1]
  simp [h2, h3, h4]

/-- Witness for C7: user 1 occupies room 5 of capacity 1 through booking 7;
moving booking 7 into room 5 itself is refused with forbidden. -/
theorem update_no_self_exemption_witness :
    updateBooking dbSelf 1 5 7 = (.error .forbidden, dbSelf) :=
  update_no_self_exemption dbSelf 1 7 ⟨7, 1, 5⟩ ⟨5, "single", 1, 100⟩
    (by rfl) (by rfl) (by rfl) (by decide)

/-- Claim C1: create checks its five preconditions in the source's fixed
order — enrollment (forbidden), ticket eligibility (forbidden), room
existence (notFound), duplicate booking (forbidden), capacity (forbidden) —
so the first violated precondition in that order determines the error. -/
theorem postBooking_check_order (db : DB) (u rm : Nat) :
    (findWithAddressByUserId db u = none →
      postBooking db u rm = (.error .forbidden, db)) ∧
    (∀ e, findWithAddressByUserId db u = some e →
      (findTicketByEnrollmentId db e.id = none →
        postBooking db u rm = (.error .forbidden, db)) ∧
      (∀ t, findTicketByEnrollmentId db e.id = some t →
        ((t.status = .RESERVED ∨ t.ticketType.isRemote = true ∨
          t.ticketType.includesHotel = false) →
          postBooking db u rm = (.error .forbidden, db)) ∧
        (t.status ≠ .RESERVED → t.ticketType.isRemote = false →
         t.ticketType.includesHotel = true →
          (findRoomById db rm = none →
            postBooking db u rm = (.error .notFound, db)) ∧
          (∀ room, findRoomById db rm = some room →
            (∀ bw, findBookingByUserId db u = some bw →
              postBooking db u rm = (.error .forbidden, db)) ∧
            (findBookingByUserId db u = none →
              (room.capacity ≤ (findBookingsByRoomId db rm).length →
                postBooking db u rm = (.error .forbidden, db)) ∧
              ((findBookingsByRoomId db rm).length < room.capacity →
                postBooking db u rm =
                  (.ok db.nextBookingId,
                   { db with
                     bookings := db.bookings ++ [⟨db.nextBookingId, u, rm⟩],
                     nextBookingId := db.nextBookingId + 1 }))))))) := by
  constructor
  · intro hE
    simp [postBooking, hE]
  · intro e hE
    constructor
    · intro hT
      simp [postBooking, hE, hT]
    · intro t hT
      constructor
      · intro hbad
        rcases hbad with hb | hb | hb <;> simp [postBooking, hE, hT, hb]
      · intro hS hR hH
        constructor
        · intro hRoom
          simp [postBooking, hE, hT, hS, hR, hH, hRoom]
        · intro room hRoom
          constructor
          · intro bw hB
            simp [postBooking, hE, hT, hS, hR, hH, hRoom, hB]
          · intro hB
            constructor
            · intro hcap
              simp [postBooking, hE, hT, hS, hR, hH, hRoom, hB, hcap]
            · intro hcap
              simp [postBooking, hE, hT, hS, hR, hH, hRoom, hB,
                    Nat.not_le.mpr hcap, createBooking]

/-- Witness for C1: on the concrete store the success path of create is
reached through every check, booking 100 landing user 1 in room 5. -/
theorem postBooking_check_order_witness :
    postBooking dbOk 1 5 =
      (.ok dbOk.nextBookingId,
       { dbOk with
         bookings := dbOk.bookings ++ [⟨dbOk.nextBookingId, 1, 5⟩],
         nextBookingId := dbOk.nextBookingId + 1 }) := by
  have h := ((postBooking_check_order dbOk 1 5).2 ⟨10, 1⟩ (by rfl)).2
    ⟨10, .PAID, ⟨false, true⟩⟩ (by rfl)
  have h2 := (h.2 (by decide) (by rfl) (by rfl)).2 ⟨5, "suite", 2, 100⟩ (by rfl)
  exact (h2.2 (by rfl)).2 (by decide)

/-- Claim C3: update checks its preconditions in the source's fixed order —
missing booking (notFound), foreign booking (forbidden), missing target room
(notFound), full target room (forbidden) — and never consults enrollment or
ticket data: replacing those two tables changes nothing but their
passthrough in the resulting store. -/
theorem updateBooking_check_order (db : DB) (u rm b : Nat) :
    (findBookingById db b = none →
      updateBooking db u rm b = (.error .notFound, db)) ∧
    (∀ bk, findBookingById db b = some bk →
      (bk.userId ≠ u → updateBooking db u rm b = (.error .forbidden, db)) ∧
      (bk.userId = u →
        (findRoomById db rm = none →
          updateBooking db u rm b = (.error .notFound, db)) ∧
        (∀ room, findRoomById db rm = some room →
          (room.capacity ≤ (findBookingsByRoomId db rm).length →
            updateBooking db u rm b = (.error .forbidden, db)) ∧
          ((findBookingsByRoomId db rm).length < room.capacity →
            updateBooking db u rm b =
              (.ok b,
               { db with
                 bookings := db.bookings.map
                   (fun x => if x.id == b then { x with roomId := rm } else x) }))))) ∧
    (∀ es ts,
      updateBooking { db with enrollments := es, tickets := ts } u rm b =
        ((updateBooking db u rm b).1,
         { (updateBooking db u rm b).2 with enrollments := es, tickets := ts })) := by
  refine ⟨?_, ?_, ?_⟩
  · intro hB
    simp [updateBooking, hB]
  · intro bk hB
    constructor
    · intro hown
      simp [updateBooking, hB, hown]
    · intro hown
      constructor
      · intro hRoom
        simp [updateBooking, hB, hown, hRoom]
      · intro room hRoom
        constructor
        · intro hcap
          simp [updateBooking, hB, hown, hRoom, hcap]
        · intro hcap
          simp [updateBooking, hB, hown, hRoom, Nat.not_le.mpr hcap,
                updateBookingRow]
  · intro es ts
    unfold updateBooking findBookingById findRoomById findBookingsByRoomId updateBookingRow
    repeat' split <;> try rfl
    all_goals simp_all
    all_goals omega

/-- Witness for C3: on the concrete store with no booking 7 the first check
fires with notFound, and swapping out the enrollment and ticket tables does
not change update's outcome. -/
theorem updateBooking_check_order_witness :
    updateBooking dbOk 1 5 7 = (.error .notFound, dbOk) ∧
    updateBooking { dbOk with enrollments := [], tickets := [] } 1 5 7 =
      ((updateBooking dbOk 1 5 7).1,
       { (updateBooking dbOk 1 5 7).2 with enrollments := [], tickets := [] }) :=
  ⟨(updateBooking_check_order dbOk 1 5 7).1 (by rfl),
   (updateBooking_check_order dbOk 1 5 7).2.2 [] []⟩

/-- Claim C6: for an eligible user with no existing booking and an existing
room, create fails with forbidden exactly when the room's booking count has
reached its capacity, and otherwise creates a new booking and returns its
id. -/
theorem postBooking_capacity_boundary (db : DB) (u rm : Nat) (e : Enrollment)
    (t : Ticket) (room : Room)
    (hE : findWithAddressByUserId db u = some e)
    (hT : findTicketByEnrollmentId db e.id = some t)
    (hS : t.status = .PAID) (hR : t.ticketType.isRemote = false)
    (hH : t.ticketType.includesHotel = true)
    (hRoom : findRoomById db rm = some room)
    (hNoB : findBookingByUserId db u = none) :
    ((findBookingsByRoomId db rm).length < room.capacity →
      postBooking db u rm =
        (.ok db.nextBookingId,
         { db with
           bookings := db.bookings ++ [⟨db.nextBookingId, u, rm⟩],
           nextBookingId := db.nextBookingId + 1 })) ∧
    (postBooking db u rm = (.error .forbidden, db) ↔
      room.capacity ≤ (findBookingsByRoomId db rm).length) := by
  have hS' : t.status ≠ .RESERVED := by rw [hS]; intro hc; cases hc
  constructor
  · intro hcap
    simp [postBooking, hE, hT, hS', hR, hH, hRoom, hNoB, Nat.not_le.mpr hcap,
          createBooking]
  · constructor
    · intro hfb
      by_contra hc
      rw [Nat.not_le] at hc
      rw [show postBooking db u rm =
            (.ok db.nextBookingId,
             { db with
               bookings := db.bookings ++ [⟨db.nextBookingId, u, rm⟩],
               nextBookingId := db.nextBookingId + 1 }) from by
          simp [postBooking, hE, hT, hS', hR, hH, hRoom, hNoB,
                Nat.not_le.mpr hc, createBooking]] at hfb
      simp at hfb
    · intro hcap
      simp [postBooking, hE, hT, hS', hR, hH, hRoom, hNoB, hcap]

/-- Witness for C6: on the concrete store, room 5 with capacity 2 and no
occupants admits user 1's new booking. -/
theorem postBooking_capacity_boundary_witness :
    postBooking dbOk 1 5 =
      (.ok dbOk.nextBookingId,
       { dbOk with
         bookings := dbOk.bookings ++ [⟨dbOk.nextBookingId, 1, 5⟩],
         nextBookingId := dbOk.nextBookingId + 1 }) :=
  (postBooking_capacity_boundary dbOk 1 5 ⟨10, 1⟩ ⟨10, .PAID, ⟨false, true⟩⟩
    ⟨5, "suite", 2, 100⟩ (by rfl) (by rfl) (by rfl) (by rfl) (by rfl) (by rfl)
    (by rfl)).1 (by decide)

/-- Counterexample to claim C2 as stated: in the concrete store user 1 has
an enrollment and a fully eligible ticket (paid, not remote, hotel
included), yet create fails with forbidden — because the user already holds
a booking — so create failing with forbidden is not equivalent to the
ticket being ineligible. -/
theorem create_forbidden_iff_ineligible_cex :
    findWithAddressByUserId dbDup 1 = some ⟨10, 1⟩ ∧
    findTicketByEnrollmentId dbDup 10 = some ⟨10, .PAID, ⟨false, true⟩⟩ ∧
    (postBooking dbDup 1 5).1 = .error .forbidden :=
  ⟨rfl, rfl, rfl⟩

/-- Claim C2 (amended): for a user with an enrollment whose later checks
would pass — the target room exists, the user holds no booking, and the
room is below capacity — create fails with forbidden exactly when the
ticket is ineligible: no ticket exists, or its status is RESERVED rather
than PAID, or its type is remote, or its type excludes hotel lodging;
absence of a ticket yields the very same forbidden failure. -/
theorem create_forbidden_iff_ineligible (db : DB) (u rm : Nat) (e : Enrollment)
    (room : Room)
    (hE : findWithAddressByUserId db u = some e)
    (hRoom : findRoomById db rm = some room)
    (hNoB : findBookingByUserId db u = none)
    (hCap : (findBookingsByRoomId db rm).length < room.capacity) :
    (postBooking db u rm).1 = .error .forbidden ↔
      findTicketByEnrollmentId db e.id = none ∨
      ∃ t, findTicketByEnrollmentId db e.id = some t ∧
        (t.status = .RESERVED ∨ t.ticketType.isRemote = true ∨
         t.ticketType.includesHotel = false) := by
  cases hT : findTicketByEnrollmentId db e.id with
  | none =>
    constructor
    · intro _
      exact Or.inl rfl
    · intro _
      simp [postBooking, hE, hT]
  | some t =>
    by_cases hS : t.status = .RESERVED
    · constructor
      · intro _
        exact Or.inr ⟨t, rfl, Or.inl hS⟩
      · intro _
        simp [postBooking, hE, hT, hS]
    · by_cases hR : t.ticketType.isRemote = true
      · constructor
        · intro _
          exact Or.inr ⟨t, rfl, Or.inr (Or.inl hR)⟩
        · intro _
          simp [postBooking, hE, hT, hR]
      · by_cases hH : t.ticketType.includesHotel = true
        · rw [show (postBooking db u rm).1 = .ok db.nextBookingId from by
            simp [postBooking, hE, hT, hS, hR, hH, hRoom,
                  hNoB, Nat.not_le.mpr hCap, createBooking]]
          constructor
          · intro hc
            exact absurd hc (by simp)
          · rintro (hc | ⟨t', ht', hbad⟩)
            · cases hc
            · cases ht'
              rcases hbad with hb | hb | hb
              · exact absurd hb hS
              · exact absurd hb hR
              · rw [hH] at hb
                cases hb
        · constructor
          · intro _
            exact Or.inr ⟨t, rfl, Or.inr (Or.inr (by simpa using hH))⟩
          · intro _
            simp [postBooking, hE, hT, hH]

/-- Witness for the amended C2: in the concrete store whose enrollment has
no ticket, create for user 1 fails with forbidden. -/
theorem create_forbidden_iff_ineligible_witness :
    (postBooking dbNoTicket 1 5).1 = .error .forbidden :=
  (create_forbidden_iff_ineligible dbNoTicket 1 5 ⟨10, 1⟩ ⟨5, "suite", 2, 100⟩
    (by rfl) (by rfl) (by rfl) (by decide)).mpr (Or.inl rfl)

/-- Claim C5: after a successful create(userId, roomId), retrieve(userId)
on the resulting store succeeds and returns the created booking's id with
exactly the room whose id is roomId, leaving the store unchanged. -/
theorem create_then_retrieve (db : DB) (u rm id : Nat) (db' : DB)
    (h : postBooking db u rm = (.ok id, db')) :
    ∃ room, findRoomById db rm = some room ∧ room.id = rm ∧
      getBooking db' u = (.ok ⟨id, some room⟩, db') := by
  obtain ⟨room, hroom, hnob, hcap, hid, hdb'⟩ := postBooking_ok_inv db u rm id db' h
  have hroom' : db.rooms.find? (fun r => r.id == rm) = some room := hroom
  refine ⟨room, hroom, ?_, ?_⟩
  · simpa using List.find?_some hroom'
  · have hfind : db.bookings.find? (fun b => b.userId == u) = none := by
      unfold findBookingByUserId at hnob
      exact Option.map_eq_none'.mp hnob
    subst hdb' hid
    unfold getBooking findBookingByUserId
    rw [List.find?_append, hfind]
    simp only [Option.none_or]
    rw [List.find?_cons_of_pos _ (by simp)]
    simp only [Option.map_some']
    rw [hroom']

/-- Witness for C5: on the concrete store, after user 1 books room 5,
retrieve returns booking 100 with room 5. -/
theorem create_then_retrieve_witness :
    ∃ room, findRoomById dbOk 5 = some room ∧ room.id = 5 ∧
      getBooking dbOkAfter 1 = (.ok ⟨100, some room⟩, dbOkAfter) :=
  create_then_retrieve dbOk 1 5 100 dbOkAfter (by rfl)

/-- Claim C8: a successful update(userId, roomId, bookingId) returns
bookingId and changes nothing in the store except the roomId field of the
bookings carrying id bookingId: rooms, enrollments, tickets and the id
counter are untouched, no booking is created or deleted, and every
booking's id and userId are preserved. -/
theorem updateBooking_frame (db : DB) (u rm b id : Nat) (db' : DB)
    (h : updateBooking db u rm b = (.ok id, db')) :
    id = b ∧
    db'.rooms = db.rooms ∧ db'.enrollments = db.enrollments ∧
    db'.tickets = db.tickets ∧ db'.nextBookingId = db.nextBookingId ∧
    db'.bookings = db.bookings.map
      (fun x => if x.id == b then { x with roomId := rm } else x) ∧
    db'.bookings.length = db.bookings.length ∧
    db'.bookings.map Booking.id = db.bookings.map Booking.id ∧
    db'.bookings.map Booking.userId = db.bookings.map Booking.userId := by
  obtain ⟨bk, room, _, _, _, _, hid, hdb'⟩ := updateBooking_ok_inv db u rm b id db' h
  subst hdb'
  refine ⟨hid, rfl, rfl, rfl, rfl, rfl, by simp, ?_, ?_⟩
  · rw [List.map_map]
    apply List.map_congr_left
    intro x _
    dsimp [Function.comp]
    split <;> rfl
  · rw [List.map_map]
    apply List.map_congr_left
    intro x _
    dsimp [Function.comp]
    split <;> rfl

/-- Witness for C8: moving booking 7 of user 1 into room 6 keeps its id and
owner and touches nothing else in the concrete store. -/
theorem updateBooking_frame_witness :
    (7 : Nat) = 7 ∧
    dbMoveAfter.rooms = dbMove.rooms ∧
    dbMoveAfter.enrollments = dbMove.enrollments ∧
    dbMoveAfter.tickets = dbMove.tickets ∧
    dbMoveAfter.nextBookingId = dbMove.nextBookingId ∧
    dbMoveAfter.bookings = dbMove.bookings.map
      (fun x => if x.id == 7 then { x with roomId := 6 } else x) ∧
    dbMoveAfter.bookings.length = dbMove.bookings.length ∧
    dbMoveAfter.bookings.map Booking.id = dbMove.bookings.map Booking.id ∧
    dbMoveAfter.bookings.map Booking.userId = dbMove.bookings.map Booking.userId :=
  updateBooking_frame dbMove 1 6 7 7 dbMoveAfter (by rfl)

theorem countP_congr_eq {α : Type} (l : List α) (p q : α → Bool)
    (h : ∀ x ∈ l, p x = q x) : l.countP p = l.countP q := by
  induction l with
  | nil => rfl
  | cons a l ih =>
    rw [List.countP_cons, List.countP_cons, h a (List.mem_cons_self a l),
        ih (fun x hx => h x (List.mem_cons_of_mem a hx))]

/-- Claim C4: from any store where each user holds at most one booking and
each room stays within capacity (with unique primary keys), every
successful retrieve, create, or update yields a store with the same two
invariants. -/
theorem bookingInvariants_preserved (db : DB) (hids : NodupIds db)
    (h1 : AtMostOneBookingPerUser db) (h2 : RoomsWithinCapacity db) :
    (∀ u, AtMostOneBookingPerUser (getBooking db u).2 ∧
          RoomsWithinCapacity (getBooking db u).2) ∧
    (∀ u rm id db', postBooking db u rm = (.ok id, db') →
        AtMostOneBookingPerUser db' ∧ RoomsWithinCapacity db') ∧
    (∀ u rm b id db', updateBooking db u rm b = (.ok id, db') →
        AtMostOneBookingPerUser db' ∧ RoomsWithinCapacity db') := by
  refine ⟨?_, ?_, ?_⟩
  · intro u
    rw [getBooking_state]
    exact ⟨h1, h2⟩
  · intro u rm id db' h
    obtain ⟨room, hroom, hnob, hcap, hid, hdb'⟩ := postBooking_ok_inv db u rm id db' h
    subst hdb'
    have hroom2 : db.rooms.find? (fun r => r.id == rm) = some room := hroom
    have hroomMem : room ∈ db.rooms := List.mem_of_find?_eq_some hroom2
    have hroomId : room.id = rm := by simpa using List.find?_some hroom2
    have hfind : db.bookings.find? (fun x => x.userId == u) = none := by
      unfold findBookingByUserId at hnob
      exact Option.map_eq_none'.mp hnob
    have hcap' : (List.filter (fun x => x.roomId == rm) db.bookings).length
        < room.capacity := by
      have := hcap
      unfold findBookingsByRoomId at this
      exact this
    constructor
    · intro u'
      show (List.filter (fun x => x.userId == u')
        (db.bookings ++ [⟨db.nextBookingId, u, rm⟩])).length ≤ 1
      rw [List.filter_append, List.length_append]
      by_cases hu : u' = u
      · subst hu
        have hempty : List.filter (fun x => x.userId == u') db.bookings = [] := by
          apply List.filter_eq_nil_iff.mpr
          intro a ha
          exact List.find?_eq_none.mp hfind a ha
        rw [hempty]
        simp
      · have hsingle : List.filter (fun x => x.userId == u')
            [(⟨db.nextBookingId, u, rm⟩ : Booking)] = [] := by
          simp [beq_iff_eq, Ne.symm hu]
        rw [hsingle]
        have := h1 u'
        simpa using this
    · intro room' hmem'
      show (List.filter (fun x => x.roomId == room'.id)
        (db.bookings ++ [⟨db.nextBookingId, u, rm⟩])).length ≤ room'.capacity
      rw [List.filter_append, List.length_append]
      by_cases hr : room'.id = rm
      · have hre : room = room' :=
          List.inj_on_of_nodup_map hids.2 hroomMem hmem' (by rw [hroomId, hr])
        have hsingle : List.filter (fun x => x.roomId == room'.id)
            [(⟨db.nextBookingId, u, rm⟩ : Booking)] = [⟨db.nextBookingId, u, rm⟩] := by
          simp [beq_iff_eq, hr]
        rw [hsingle]
        have hold : (List.filter (fun x => x.roomId == room'.id) db.bookings).length
            < room'.capacity := by
          rw [hr, ← hre]
          exact hcap'
        simp only [List.length_cons, List.length_nil]
        omega
      · have hsingle : List.filter (fun x => x.roomId == room'.id)
            [(⟨db.nextBookingId, u, rm⟩ : Booking)] = [] := by
          simp [beq_iff_eq, Ne.symm hr]
        rw [hsingle]
        have := h2 room' hmem'
        simpa using this
  · intro u rm b id db' h
    obtain ⟨bk, room, hbk, hbkuid, hroomF, hcap, hid, hdb'⟩ :=
      updateBooking_ok_inv db u rm b id db' h
    subst hdb'
    have hroom2 : db.rooms.find? (fun r => r.id == rm) = some room := hroomF
    have hroomMem : room ∈ db.rooms := List.mem_of_find?_eq_some hroom2
    have hroomId : room.id = rm := by simpa using List.find?_some hroom2
    have hcap' : List.countP (fun x : Booking => x.roomId == rm) db.bookings
        < room.capacity := by
      have := hcap
      unfold findBookingsByRoomId at this
      rwa [List.countP_eq_length_filter]
    constructor
    · intro u'
      show (List.filter (fun x => x.userId == u') (db.bookings.map
        (fun x => if x.id == b then { x with roomId := rm } else x))).length ≤ 1
      rw [← List.countP_eq_length_filter, List.countP_map]
      have heq : List.countP ((fun x : Booking => x.userId == u') ∘
          (fun x => if x.id == b then { x with roomId := rm } else x)) db.bookings
          = List.countP (fun x : Booking => x.userId == u') db.bookings := by
        apply countP_congr_eq
        intro x _
        dsimp [Function.comp]
        split <;> rfl
      rw [heq, List.countP_eq_length_filter]
      exact h1 u'
    · intro room' hmem'
      show (List.filter (fun x => x.roomId == room'.id) (db.bookings.map
        (fun x => if x.id == b then { x with roomId := rm } else x))).length
        ≤ room'.capacity
      rw [← List.countP_eq_length_filter, List.countP_map]
      by_cases hr : room'.id = rm
      · have hre : room = room' :=
          List.inj_on_of_nodup_map hids.2 hroomMem hmem' (by rw [hroomId, hr])
        have hb1 : List.countP (fun x : Booking => x.id == b) db.bookings ≤ 1 := by
          have hcnt := List.nodup_iff_count_le_one.mp hids.1 b
          calc List.countP (fun x : Booking => x.id == b) db.bookings
              = List.countP ((fun n => n == b) ∘ Booking.id) db.bookings := rfl
            _ = List.countP (fun n => n == b) (db.bookings.map Booking.id) :=
                (List.countP_map _ _ _).symm
            _ = List.count b (db.bookings.map Booking.id) :=
                (List.count_eq_countP _ _).symm
            _ ≤ 1 := hcnt
        have hmain : List.countP ((fun x : Booking => x.roomId == room'.id) ∘
            (fun x => if x.id == b then { x with roomId := rm } else x)) db.bookings
            ≤ List.countP (fun x : Booking => x.id == b) db.bookings
              + List.countP (fun x : Booking => x.roomId == rm) db.bookings := by
          apply countP_le_countP_add
          intro x _ hx
          dsimp [Function.comp] at hx
          by_cases hxb : (x.id == b) = true
          · exact Or.inl hxb
          · right
            rw [if_neg (by simpa using hxb)] at hx
            rw [← hr]
            exact hx
        have hcap2 : List.countP (fun x : Booking => x.roomId == rm) db.bookings
            < room'.capacity := by
          rw [← hre]
          exact hcap'
        omega
      · have hmono : List.countP ((fun x : Booking => x.roomId == room'.id) ∘
            (fun x => if x.id == b then { x with roomId := rm } else x)) db.bookings
            ≤ List.countP (fun x : Booking => x.roomId == room'.id) db.bookings := by
          apply List.countP_mono_left
          intro x _ hx
          dsimp [Function.comp] at hx
          by_cases hxb : (x.id == b) = true
          · rw [if_pos hxb] at hx
            have : rm = room'.id := by simpa using hx
            exact absurd this.symm hr
          · rw [if_neg (by simpa using hxb)] at hx
            exact hx
        have := h2 room' hmem'
        rw [← List.countP_eq_length_filter] at this
        omega

/-- Witness for C4: the empty-booking concrete store satisfies both
invariants, and so does the store after user 1 books room 5 there. -/
theorem bookingInvariants_preserved_witness :
    AtMostOneBookingPerUser dbOkAfter ∧ RoomsWithinCapacity dbOkAfter :=
  (bookingInvariants_preserved dbOk
    (by constructor <;> decide)
    (by intro u; simp [dbOk])
    (by intro room hmem; simp [dbOk] at hmem; simp [dbOk, hmem])).2.1
    1 5 100 dbOkAfter (by rfl)
